import Mathlib

/-!
Verification development for the RL-ProfilePictures-REVAMP avatar pipeline.

The definitions below are a shallow embedding of the C++ sources:
  - `AvatarDownloader.cpp` (`IsAllowed`, `GetURLForID`, `DownloadAvatar`,
    `DownloadXboxAvatar`, `UploadToCDN`),
  - `AvatarManager.cpp` (`LoadForPRI`, `LoadAvatar`, `GetBrightnessEnabled`,
    `RemoveLocalAvatar`),
  - `ImageProcessor.cpp` (`BrightenImage`),
  - `StringUtils.cpp` (`SanitizeFilename`),
  - `Constants.h` (cvar names, gamma exponent).

External collaborators that are not part of the repository (the game engine's
`UOnline_X::UniqueNetIdToString`, the stb image codec, `ImageWrapper` texture
creation, the HTTP transport) are either modelled from the spec (explicitly
marked) or abstracted as parameters of the model; they never decide a branch
that one of these theorems is about. C++ `std::string` values are modelled as
`List Char`; machine integers that never overflow in the modelled ranges are
modelled as `Nat` / `Int`.
-/

-- =============================================================================
-- Data model: platforms and identities (FUniqueNetId from the RLSDK)
-- =============================================================================

/-- The platform tags the source dispatches on (`EOnlinePlatform` cases that
appear in `AvatarDownloader.cpp`); `OtherPlatform` stands for every value
that falls into the `default:` branch of the `switch`. -/
inductive Platform where
  | Steam
  | Epic
  | Dingo
  | PS4
  | NNX
  | OtherPlatform
deriving DecidableEq

/-- `FUniqueNetId`: the fields the repository reads (`Platform`, `Uid`,
`EpicAccountId`). -/
structure FUniqueNetId where
  platform : Platform
  uid : Nat
  epicAccountId : List Char
deriving DecidableEq

-- =============================================================================
-- Configuration surface (cvar manager), Constants.h names
-- =============================================================================

def CVAR_STEAM_ENABLED : String := "RLProfilePicturesREVAMP_Steam_Enabled"

def CVAR_EPIC_ENABLED : String := "RLProfilePicturesREVAMP_Epic_Enabled"

def CVAR_XBOX_ENABLED : String := "RLProfilePicturesREVAMP_Xbox_Enabled"

def CVAR_PSN_ENABLED : String := "RLProfilePicturesREVAMP_PSN_Enabled"

def CVAR_SWITCH_ENABLED : String := "RLProfilePicturesREVAMP_Switch_Enabled"

def CVAR_BRIGHTNESS_ADJUSTMENT_ENABLED : String :=
  "RLProfilePicturesREVAMP_BrightnessAdjustment_Enabled"

def CVAR_LOAD_DEFAULT_AVATARS : String := "rlprofilepictures_load_default_avatars"

/-- The cvar manager: `none` models a null `_globalCvarManager`; otherwise a
map from cvar name to the cvar's boolean value, where `none` for a name models
`getCvar` returning a null `CVarWrapper`. -/
def CvarManager : Type := Option (String → Option Bool)

/-- The `getCVarBool` helper lambda in `AvatarDownloader::IsAllowed`
(lines 52-57): null manager gives `false`, a null cvar gives `false`,
otherwise the cvar's boolean value. -/
def getCVarBool (mgr : CvarManager) (name : String) : Bool :=
  match mgr with
  | none => false
  | some store =>
    match store name with
    | none => false
    | some v => v

-- =============================================================================
-- AvatarDownloader::IsAllowed (AvatarDownloader.cpp lines 44-79)
-- =============================================================================

/-- `localOnSteam` in `IsAllowed` (lines 46-49): true exactly when
`RL::GetPrimaryPlayerID()` is non-null and its platform is Steam. -/
def localOnSteam (localId : Option FUniqueNetId) : Bool :=
  match localId with
  | some l => match l.platform with | .Steam => true | _ => false
  | none => false

/-- `AvatarDownloader::IsAllowed` (lines 44-79): the per-platform policy
switch. The local player's identity and the cvar store are the ambient state
the function reads. -/
def isAllowed (mgr : CvarManager) (localId : Option FUniqueNetId)
    (id : FUniqueNetId) : Bool :=
  match id.platform with
  | .Steam => !(localOnSteam localId) && getCVarBool mgr CVAR_STEAM_ENABLED
  | .Epic => getCVarBool mgr CVAR_EPIC_ENABLED
  | .Dingo => getCVarBool mgr CVAR_XBOX_ENABLED
  | .PS4 => getCVarBool mgr CVAR_PSN_ENABLED
  | .NNX => getCVarBool mgr CVAR_SWITCH_ENABLED
  | .OtherPlatform => false

/-- The spec-side reading of the policy: the name of the enable flag that
governs each recognized platform (`none` for an unrecognized platform). -/
def enableFlagName : Platform → Option String
  | .Steam => some CVAR_STEAM_ENABLED
  | .Epic => some CVAR_EPIC_ENABLED
  | .Dingo => some CVAR_XBOX_ENABLED
  | .PS4 => some CVAR_PSN_ENABLED
  | .NNX => some CVAR_SWITCH_ENABLED
  | .OtherPlatform => none

/-- The spec's statement of the policy rule: fetch is permitted iff the
platform is recognized, its enable flag reads true, and (for the Steam
platform only) the local viewer's identity platform is not Steam. -/
def allowedSpec (mgr : CvarManager) (localId : Option FUniqueNetId)
    (id : FUniqueNetId) : Prop :=
  match enableFlagName id.platform with
  | none => False
  | some flag =>
    getCVarBool mgr flag = true ∧
      (id.platform = Platform.Steam → localOnSteam localId = false)

-- =============================================================================
-- RLProfilePicturesStringUtils::SanitizeFilename (StringUtils.cpp lines 10-19)
-- =============================================================================

/-- `invalidChars = "<>:\"|?*\\/"` from `SanitizeFilename`. -/
def invalidFilenameChars : List Char := ['<', '>', ':', '"', '|', '?', '*', '\\', '/']

/-- One step of the `SanitizeFilename` loop: a character from the invalid set,
or below 32, is replaced by an underscore. -/
def sanitizeChar (c : Char) : Char :=
  if c ∈ invalidFilenameChars ∨ c.toNat < 32 then '_' else c

/-- `SanitizeFilename` (lines 10-19): replace each bad character in place. -/
def sanitizeFilename (s : List Char) : List Char := s.map sanitizeChar

/-- Decidable test used to state the claims: does the string contain a
character that `SanitizeFilename` would replace? -/
def hasBadChar (s : List Char) : Bool :=
  s.any (fun c => decide (c ∈ invalidFilenameChars ∨ c.toNat < 32))

-- =============================================================================
-- The engine's `UOnline_X::UniqueNetIdToString` (not in the repository)
-- =============================================================================

/-- Decimal digit characters of a natural number, most significant first
(empty for 0). -/
def natDigitsChars (n : Nat) : List Char :=
  (Nat.digits 10 n).reverse.map (fun d => Char.ofNat (48 + d))

/-- Decimal rendering of a `Nat`, as `std::to_string` renders it ("0" for 0). -/
def uidChars (n : Nat) : List Char :=
  if n = 0 then ['0'] else natDigitsChars n

/-- Printable discriminant of a platform. -/
def platformName : Platform → List Char
  | .Steam => "Steam".data
  | .Epic => "Epic".data
  | .Dingo => "Dingo".data
  | .PS4 => "PS4".data
  | .NNX => "NNX".data
  | .OtherPlatform => "Unknown".data

/-- Modelled from the spec: the engine's `UOnline_X::UniqueNetIdToString` is
not part of this repository; the spec describes the derived string as the
"platform discriminant + id", where the id is the Epic account id string on
the Epic platform and the numeric Uid elsewhere. -/
def uniqueNetIdToString (id : FUniqueNetId) : List Char :=
  platformName id.platform ++
    (match id.platform with
     | .Epic => id.epicAccountId
     | _ => uidChars id.uid)

-- =============================================================================
-- Cache keys in AvatarManager.cpp
-- =============================================================================

/-- The key `AvatarManager::LoadAvatar` inserts under (lines 249-250, 316):
the sanitized id string. -/
def loadAvatarCacheKey (id : FUniqueNetId) : List Char :=
  sanitizeFilename (uniqueNetIdToString id)

/-- The key `AvatarManager::LoadForPRI` looks up (lines 584-585): the raw,
unsanitized id string. -/
def loadForPRICacheKey (id : FUniqueNetId) : List Char :=
  uniqueNetIdToString id

/-- The key `AvatarManager::RemoveLocalAvatar` erases (lines 240-241): the
raw, unsanitized id string. -/
def removeLocalAvatarCacheKey (id : FUniqueNetId) : List Char :=
  uniqueNetIdToString id

/-- The avatar cache (`std::map<std::string, UTexture2DDynamic*>`): keys to
texture handles; `none` covers both an absent entry and a stored null, the
two cases `GetCachedAvatar`'s callers treat alike. -/
def AvatarCache : Type := List Char → Option Nat

-- =============================================================================
-- Observable effects of the orchestration code
-- =============================================================================

/-- The externally observable calls the modelled code paths make: Fetcher
calls (`DownloadAvatar` / `DownloadXboxAvatar` issue an HTTP request),
Normalizer calls (`BrightenImage`), apply calls (`SetAvatar`), temp-file
removal, upload-callback invocation, and the scheduling of
`LoadAvatarDirect` on the game thread. -/
inductive Effect where
  | fetchById (id : FUniqueNetId)
  | fetchXboxByName (id : FUniqueNetId) (playerName : List Char)
  | normalize (data : List Nat)
  | applyTex (id : FUniqueNetId) (tex : Nat)
  | removeFile (path : List Char)
  | invokeCallback (success : Bool)
  | scheduleLoadDirect (id : FUniqueNetId)
deriving DecidableEq

/-- Number of Fetcher invocations in an effect trace. -/
def countFetch (l : List Effect) : Nat :=
  l.countP (fun e =>
    match e with
    | .fetchById _ => true
    | .fetchXboxByName _ _ => true
    | _ => false)

/-- Number of Normalizer (`BrightenImage`) invocations in an effect trace. -/
def countNormalize (l : List Effect) : Nat :=
  l.countP (fun e => match e with | .normalize _ => true | _ => false)

/-- Number of apply (`SetAvatar`) calls in an effect trace. -/
def countApply (l : List Effect) : Nat :=
  l.countP (fun e => match e with | .applyTex _ _ => true | _ => false)

-- =============================================================================
-- AvatarManager::LoadForPRI (AvatarManager.cpp lines 551-596)
-- =============================================================================

/-- `AvatarManager::LoadForPRI`: `pcPresent` models the player-controller
null check, `localPRI` the `pc->PRI ? &pc->PRI->UniqueId : nullptr` read,
`pri` the (identity, player name) of the requested player (`none` models a
null PRI). Returns the trace of observable calls. -/
def loadForPRI (pcPresent : Bool) (localPRI : Option FUniqueNetId)
    (pri : Option (FUniqueNetId × List Char)) (cache : AvatarCache) :
    List Effect :=
  if pcPresent = false then []
  else
    match pri with
    | none => []
    | some (priId, playerName) =>
      match localPRI with
      | none => []
      | some localId =>
        if localId.uid = priId.uid ∧ localId.epicAccountId = priId.epicAccountId
        then []
        else
          match priId.platform with
          | .Dingo => [.fetchXboxByName priId playerName]
          | _ =>
            match cache (uniqueNetIdToString priId) with
            | some tex => [.applyTex priId tex]
            | none => [.fetchById priId]

-- =============================================================================
-- AvatarManager::LoadAvatar (AvatarManager.cpp lines 248-322)
-- =============================================================================

/-- `AvatarManager::LoadAvatar`, the downloader's completion callback on the
game thread. `brighten` abstracts `BrightenImage` applied to the raw bytes
(`none` models the decode/encode exceptions the surrounding `try` swallows);
`mkTex` abstracts the temp-file round trip plus `ImageWrapper` texture
creation (`none` models any of its failure exits). Returns the new cache and
the observable calls: a cache hit applies the cached texture and touches
nothing else; otherwise the Normalizer runs and, on success, the cache gains
the entry under the sanitized key and the texture is applied. -/
def loadAvatarModel (brighten : List Nat → Option (List Nat))
    (mkTex : List Nat → Option Nat) (id : FUniqueNetId) (data : List Nat)
    (cache : AvatarCache) : AvatarCache × List Effect :=
  let key := sanitizeFilename (uniqueNetIdToString id)
  match cache key with
  | some tex => (cache, [.applyTex id tex])
  | none =>
    match brighten data with
    | none => (cache, [.normalize data])
    | some processed =>
      match mkTex processed with
      | none => (cache, [.normalize data])
      | some tex => (Function.update cache key (some tex),
                     [.normalize data, .applyTex id tex])

-- =============================================================================
-- AvatarDownloader::DownloadAvatar HTTP completion (lines 99-125)
-- =============================================================================

/-- The status/payload checks of the `SendCurlRequest` completion lambda in
`DownloadAvatar` (lines 103-113): any status other than 200 is rejected, and
so is a null or empty payload; an accepted payload is forwarded unchanged. -/
def downloadResponseData (httpCode : Int) (dataPtr : Option (List Nat)) :
    Option (List Nat) :=
  if httpCode ≠ 200 then none
  else
    match dataPtr with
    | none => none
    | some d => if d.length = 0 then none else some d

/-- A full fetch completion: the HTTP lambda's checks followed (on the game
thread) by the `loadAvatarCallback`, which the `AvatarManager` constructor
wires to `LoadAvatar` (AvatarManager.cpp lines 21-24). Returns the resulting
cache and the observable calls. -/
def completeDownload (brighten : List Nat → Option (List Nat))
    (mkTex : List Nat → Option Nat) (id : FUniqueNetId) (httpCode : Int)
    (dataPtr : Option (List Nat)) (cache : AvatarCache) :
    AvatarCache × List Effect :=
  match downloadResponseData httpCode dataPtr with
  | none => (cache, [])
  | some d => loadAvatarModel brighten mkTex id d cache

-- =============================================================================
-- AvatarDownloader::UploadToCDN completion (lines 169-212) and
-- the AddLocalAvatar upload continuation (AvatarManager.cpp lines 107-127)
-- =============================================================================

/-- Substring test (`std::string::find(...) != npos`). -/
def listContains : List Char → List Char → Bool
  | [], needle => needle.isEmpty
  | c :: rest, needle => leadsWith needle (c :: rest) || listContains rest needle
where
  /-- Is the first list an initial segment of the second? -/
  leadsWith : List Char → List Char → Bool
    | [], _ => true
    | _ :: _, [] => false
    | a :: as, b :: bs => a = b && leadsWith as bs

/-- The success determination of the `UploadToCDN` completion lambda
(lines 193-207): status 200 with a non-empty body whose text contains
`"success":true`, or contains both `success` and `true`. -/
def uploadResponseSuccess (httpCode : Int) (body : List Char) : Bool :=
  if body.isEmpty = false ∧ httpCode = 200 then
    listContains body ("\"success\":true".data) ||
      (listContains body ("success".data) && listContains body ("true".data))
  else false

/-- The observable calls of the `UploadToCDN` completion lambda
(lines 192-211): on every status it removes the staged temp file and then
invokes the boolean callback, each exactly once. -/
def uploadCompletionEffects (filePath : List Char) (httpCode : Int)
    (body : List Char) : List Effect :=
  [.removeFile filePath, .invokeCallback (uploadResponseSuccess httpCode body)]

/-- The body of the upload callback `AddLocalAvatar` passes to `UploadToCDN`
(AvatarManager.cpp lines 110-127): schedule `LoadAvatarDirect` on the game
thread, then remove the temp file (again). -/
def addLocalAvatarUploadContinuation (id : FUniqueNetId)
    (tempPath : List Char) : List Effect :=
  [.scheduleLoadDirect id, .removeFile tempPath]

/-- State tracked while replaying an upload-completion effect trace: whether
the staged file still exists, how many times it was actually deleted (a
`std::filesystem::remove` on an already-absent file removes nothing), and how
many times the boolean callback fired. -/
structure UploadRunState where
  fileExists : Bool
  deletions : Nat
  callbackRuns : Nat
deriving DecidableEq

/-- Replay one effect against the upload run state. -/
def runUploadEffect (s : UploadRunState) : Effect → UploadRunState
  | .removeFile _ =>
    if s.fileExists then { s with fileExists := false, deletions := s.deletions + 1 }
    else s
  | .invokeCallback _ => { s with callbackRuns := s.callbackRuns + 1 }
  | _ => s

/-- Replay an effect trace against the upload run state. -/
def runUploadEffects (s : UploadRunState) (l : List Effect) : UploadRunState :=
  l.foldl runUploadEffect s

-- =============================================================================
-- ImageProcessor: GetBrightnessEnabled and BrightenImage
-- =============================================================================

/-- `AvatarManager::GetBrightnessEnabled` (AvatarManager.cpp lines 31-45):
null manager or missing cvar give a null pointer, otherwise a pointer to the
cvar's boolean value. -/
def getBrightnessEnabled (mgr : CvarManager) : Option Bool :=
  match mgr with
  | none => none
  | some store =>
    match store CVAR_BRIGHTNESS_ADJUSTMENT_ENABLED with
    | none => none
    | some v => some v

/-- `GAMMA_CORRECTION_EXPONENT` (Constants.h line 102). The source stores the
constant as a `float`; it is modelled by its decimal literal. -/
def gammaCorrectionExponent : ℝ := 0.4545454545

/-- One entry of the `srgb_lookup` table (ImageProcessor.cpp lines 111-114):
`(uint8_t)(powf(i / 255.0f, GAMMA_CORRECTION_EXPONENT) * 255.0f)`. The C cast
truncates the non-negative result toward zero, so the entry is the floor of
the real-valued expression. -/
noncomputable def srgbLut (v : Nat) : Nat :=
  ⌊((v : ℝ) / 255) ^ gammaCorrectionExponent * 255⌋₊

/-- What the spec's formula `round(255 * (input/255) ^ gamma)` prescribes for
one byte; stated from the spec's words, to be compared with `srgbLut`. -/
noncomputable def specGammaRound (v : Nat) : ℤ :=
  round (255 * ((v : ℝ) / 255) ^ gammaCorrectionExponent)

/-- The inner channel loop of `BrightenImage` (ImageProcessor.cpp
lines 122-127) over pixel `i`: for `c` below the channel count, channels
`c < 3` are mapped through the lookup table in place. -/
noncomputable def gammaInnerLoop (i channels : Nat) :
    Nat → (Nat → Nat) → (Nat → Nat)
  | 0, d => d
  | c + 1, d =>
    let d' := gammaInnerLoop i channels c d
    if c < 3 then
      Function.update d' (i * channels + c) (srgbLut (d' (i * channels + c)))
    else d'

/-- The outer pixel loop of `BrightenImage` (lines 121-128) over
`totalPixels / channels` pixels. -/
noncomputable def gammaOuterLoop (channels : Nat) :
    Nat → (Nat → Nat) → (Nat → Nat)
  | 0, d => d
  | i + 1, d => gammaInnerLoop i channels channels (gammaOuterLoop channels i d)

/-- The gamma-correction pass of `BrightenImage` on a decoded buffer of
`totalPixels` bytes (`width * height * channels` in the source), indexed by
`i * channels + c`. -/
noncomputable def applyGammaLoop (channels totalPixels : Nat) (d : Nat → Nat) :
    Nat → Nat :=
  gammaOuterLoop channels (totalPixels / channels) d

/-- The pixel-level dispatch of `BrightenImage` (ImageProcessor.cpp
lines 16-148): only a present-and-false flag takes the decode/re-encode path
that leaves every pixel unchanged (line 21); a null or present-and-true flag
runs the gamma loop over the decoded pixels. -/
noncomputable def brightenImagePixels (brightnessEnabled : Option Bool)
    (channels totalPixels : Nat) (d : Nat → Nat) : Nat → Nat :=
  match brightnessEnabled with
  | some false => d
  | _ => applyGammaLoop channels totalPixels d

/-- The id part of the modelled id string: the Epic account id string on the
Epic platform, the decimal Uid elsewhere. -/
def idPart (id : FUniqueNetId) : List Char :=
  match id.platform with
  | .Epic => id.epicAccountId
  | _ => uidChars id.uid

-- =============================================================================
-- Helper lemmas
-- =============================================================================

/-- A map leaves a list unchanged iff it fixes every element. -/
theorem list_map_eq_self_iff {α : Type} (f : α → α) (l : List α) :
    l.map f = l ↔ ∀ a ∈ l, f a = a := by
  induction l with
  | nil => simp
  | cons a t ih => simp [ih]

/-- A character `SanitizeFilename` replaces is never itself an underscore. -/
theorem bad_char_ne_underscore {c : Char}
    (h : c ∈ invalidFilenameChars ∨ c.toNat < 32) : c ≠ '_' := by
  rcases h with h | h
  · simp only [invalidFilenameChars, List.mem_cons, List.mem_singleton] at h
    rcases h with rfl | rfl | rfl | rfl | rfl | rfl | rfl | rfl | h
    · decide
    · decide
    · decide
    · decide
    · decide
    · decide
    · decide
    · decide
    · simp only [List.mem_cons, List.not_mem_nil, or_false] at h
      subst h; decide
  · intro hc
    subst hc
    exact absurd h (by decide)

/-- `sanitizeChar` fixes a character iff that character is not replaced. -/
theorem sanitizeChar_eq_self_iff (c : Char) :
    sanitizeChar c = c ↔ ¬(c ∈ invalidFilenameChars ∨ c.toNat < 32) := by
  constructor
  · intro h hbad
    rw [sanitizeChar, if_pos hbad] at h
    exact bad_char_ne_underscore hbad h.symm
  · intro h
    rw [sanitizeChar, if_neg h]

/-- `SanitizeFilename` fixes a string iff the string has no bad character. -/
theorem sanitizeFilename_eq_self_iff (s : List Char) :
    sanitizeFilename s = s ↔ hasBadChar s = false := by
  rw [sanitizeFilename, list_map_eq_self_iff, hasBadChar]
  simp only [List.any_eq_false, decide_eq_true_eq]
  constructor
  · intro h c hc
    exact (sanitizeChar_eq_self_iff c).1 (h c hc)
  · intro h c hc
    exact (sanitizeChar_eq_self_iff c).2 (h c hc)

/-- `SanitizeFilename` distributes over concatenation. -/
theorem sanitizeFilename_append (a b : List Char) :
    sanitizeFilename (a ++ b) = sanitizeFilename a ++ sanitizeFilename b :=
  List.map_append sanitizeChar a b

/-- Platform name strings contain nothing `SanitizeFilename` replaces. -/
theorem sanitizeFilename_platformName (p : Platform) :
    sanitizeFilename (platformName p) = platformName p := by
  cases p <;> decide

/-- Concatenations of a platform name and a tail determine both. -/
theorem platformName_append_inj (p₁ p₂ : Platform) (s₁ s₂ : List Char)
    (h : platformName p₁ ++ s₁ = platformName p₂ ++ s₂) :
    p₁ = p₂ ∧ s₁ = s₂ := by
  cases p₁ <;> cases p₂ <;> simp_all [platformName]

/-- Reading a digit character back. -/
theorem digitChar_toNat {d : Nat} (h : d < 10) :
    (Char.ofNat (48 + d)).toNat = 48 + d := by
  interval_cases d <;> decide

/-- The digit-character rendering of a positive number determines it. -/
theorem natDigitsChars_inj {a b : Nat} (h : natDigitsChars a = natDigitsChars b) :
    a = b := by
  have key : ∀ n : Nat,
      ((Nat.digits 10 n).reverse.map (fun d => Char.ofNat (48 + d))).map
          (fun c => c.toNat - 48) = (Nat.digits 10 n).reverse := by
    intro n
    rw [List.map_map]
    apply (list_map_eq_self_iff _ _).2
    intro d hd
    have hd10 : d < 10 :=
      Nat.digits_lt_base (by norm_num) (List.mem_reverse.1 hd)
    simp [Function.comp, digitChar_toNat hd10]
  have h2 : (Nat.digits 10 a).reverse = (Nat.digits 10 b).reverse := by
    rw [← key a, ← key b, natDigitsChars, natDigitsChars] at *
    exact congrArg (List.map fun c => c.toNat - 48) h
  have h3 : Nat.digits 10 a = Nat.digits 10 b := List.reverse_injective h2
  have := congrArg (Nat.ofDigits 10) h3
  rwa [Nat.ofDigits_digits, Nat.ofDigits_digits] at this

/-- The decimal rendering of a `Nat` determines it. -/
theorem uidChars_inj {a b : Nat} (h : uidChars a = uidChars b) : a = b := by
  by_cases ha : a = 0 <;> by_cases hb : b = 0
  · omega
  · exfalso
    rw [uidChars, if_pos ha, uidChars, if_neg hb] at h
    obtain ⟨d, hd⟩ : ∃ d, Nat.digits 10 b = [d] := by
      have hlen : ((Nat.digits 10 b).reverse.map
          (fun d => Char.ofNat (48 + d))).length = 1 := by
        rw [natDigitsChars] at h; rw [← h]; rfl
      simp only [List.length_map, List.length_reverse] at hlen
      exact List.length_eq_one.1 hlen
    rw [natDigitsChars, hd] at h
    simp only [List.reverse_singleton, List.map_cons, List.map_nil] at h
    have hd10 : d < 10 :=
      Nat.digits_lt_base (by norm_num) (by rw [hd]; exact List.mem_singleton.2 rfl)
    simp only [List.cons.injEq, and_true] at h
    have htn := congrArg Char.toNat h
    rw [digitChar_toNat hd10] at htn
    have hd0 : d = 0 := by
      have h48 : ('0' : Char).toNat = 48 := by decide
      omega
    have := congrArg (Nat.ofDigits 10) hd
    rw [Nat.ofDigits_digits, hd0] at this
    simp [Nat.ofDigits] at this
    exact hb this
  · exfalso
    rw [uidChars, if_neg ha, uidChars, if_pos hb] at h
    obtain ⟨d, hd⟩ : ∃ d, Nat.digits 10 a = [d] := by
      have hlen : ((Nat.digits 10 a).reverse.map
          (fun d => Char.ofNat (48 + d))).length = 1 := by
        rw [natDigitsChars] at h; rw [h]; rfl
      simp only [List.length_map, List.length_reverse] at hlen
      exact List.length_eq_one.1 hlen
    rw [natDigitsChars, hd] at h
    simp only [List.reverse_singleton, List.map_cons, List.map_nil] at h
    have hd10 : d < 10 :=
      Nat.digits_lt_base (by norm_num) (by rw [hd]; exact List.mem_singleton.2 rfl)
    simp only [List.cons.injEq, and_true] at h
    have htn := congrArg Char.toNat h
    rw [digitChar_toNat hd10] at htn
    have hd0 : d = 0 := by
      have h48 : ('0' : Char).toNat = 48 := by decide
      omega
    have := congrArg (Nat.ofDigits 10) hd
    rw [Nat.ofDigits_digits, hd0] at this
    simp [Nat.ofDigits] at this
    exact ha this
  · rw [uidChars, if_neg ha, uidChars, if_neg hb] at h
    exact natDigitsChars_inj h

/-- `uniqueNetIdToString` splits into the platform discriminant and the id
part. -/
theorem uniqueNetIdToString_eq (id : FUniqueNetId) :
    uniqueNetIdToString id = platformName id.platform ++ idPart id := by
  cases hp : id.platform <;> simp [uniqueNetIdToString, idPart, hp]

/-- `idPart` on the Epic platform is the Epic account id string. -/
theorem idPart_of_epic {id : FUniqueNetId} (h : id.platform = Platform.Epic) :
    idPart id = id.epicAccountId := by
  simp [idPart, h]

/-- `idPart` off the Epic platform is the decimal Uid. -/
theorem idPart_of_ne_epic {id : FUniqueNetId} (h : id.platform ≠ Platform.Epic) :
    idPart id = uidChars id.uid := by
  cases hp : id.platform
  · simp [idPart, hp]
  · exact absurd hp h
  · simp [idPart, hp]
  · simp [idPart, hp]
  · simp [idPart, hp]
  · simp [idPart, hp]

-- =============================================================================
-- Claim theorems
-- =============================================================================

/-- C1: `AvatarDownloader::IsAllowed` permits a platform-specific avatar fetch
iff that platform's enable flag reads true and, for the Steam platform, the
local viewer's identity platform is not Steam; for an unrecognized platform,
or one whose flag is false, the result is disallowed. The result depends only
on the identity's platform, never on its id fields, and the function is total
(it never throws). -/
theorem isAllowed_policy_characterization (mgr : CvarManager)
    (localId : Option FUniqueNetId) (id : FUniqueNetId) :
    (isAllowed mgr localId id = true ↔ allowedSpec mgr localId id) ∧
    (∀ id' : FUniqueNetId, id'.platform = id.platform →
      isAllowed mgr localId id' = isAllowed mgr localId id) := by
  constructor
  · obtain ⟨p, u, e⟩ := id
    cases p <;>
      (simp [isAllowed, allowedSpec, enableFlagName, Bool.and_eq_true,
         Bool.not_eq_true']
       try tauto)
  · intro id' hp
    obtain ⟨p, u, e⟩ := id
    obtain ⟨p', u', e'⟩ := id'
    have hp' : p' = p := hp
    subst hp'
    cases p' <;> rfl

/-- C1 witness: the characterization applied to a concrete Epic identity
with a concrete cvar store. -/
theorem isAllowed_policy_characterization_witness :
    isAllowed (some fun n => if n = CVAR_EPIC_ENABLED then some true else none)
        none ⟨Platform.Epic, 0, []⟩ = true ↔
      allowedSpec (some fun n => if n = CVAR_EPIC_ENABLED then some true else none)
        none ⟨Platform.Epic, 0, []⟩ :=
  (isAllowed_policy_characterization _ none _).1

/-- C2: `AvatarManager::LoadForPRI` never invokes the Fetcher for a request
whose identity has the same Uid and the same Epic account id string as the
local player's identity. -/
theorem loadForPRI_local_identity_no_fetch (pcPresent : Bool)
    (localId priId : FUniqueNetId) (playerName : List Char) (cache : AvatarCache)
    (huid : localId.uid = priId.uid)
    (hepic : localId.epicAccountId = priId.epicAccountId) :
    countFetch (loadForPRI pcPresent (some localId) (some (priId, playerName))
        cache) = 0 := by
  cases pcPresent
  · simp [loadForPRI, countFetch]
  · simp [loadForPRI, countFetch, huid, hepic]

/-- C2 witness: no fetch for the concrete local identity itself. -/
theorem loadForPRI_local_identity_no_fetch_witness :
    (⟨Platform.Epic, 7, ['x']⟩ : FUniqueNetId).uid =
        (⟨Platform.Epic, 7, ['x']⟩ : FUniqueNetId).uid ∧
      (⟨Platform.Epic, 7, ['x']⟩ : FUniqueNetId).epicAccountId =
        (⟨Platform.Epic, 7, ['x']⟩ : FUniqueNetId).epicAccountId ∧
      countFetch (loadForPRI true (some ⟨Platform.Epic, 7, ['x']⟩)
        (some (⟨Platform.Epic, 7, ['x']⟩, [])) (fun _ => none)) = 0 :=
  ⟨rfl, rfl,
    loadForPRI_local_identity_no_fetch true ⟨Platform.Epic, 7, ['x']⟩
      ⟨Platform.Epic, 7, ['x']⟩ [] (fun _ => none) rfl rfl⟩

/-- C3: a fetch completion is treated as success exactly when the HTTP status
is 200 and the payload is present and non-empty; otherwise the completion
changes no cache entry and performs no apply call, and no path of the
completion ever issues another fetch (no retry). -/
theorem downloadCompletion_success_criterion
    (brighten : List Nat → Option (List Nat)) (mkTex : List Nat → Option Nat)
    (id : FUniqueNetId) (httpCode : Int) (dataPtr : Option (List Nat))
    (cache : AvatarCache) :
    ((downloadResponseData httpCode dataPtr).isSome = true ↔
      httpCode = 200 ∧ ∃ d, dataPtr = some d ∧ d ≠ []) ∧
    (downloadResponseData httpCode dataPtr = none →
      completeDownload brighten mkTex id httpCode dataPtr cache = (cache, [])) ∧
    countFetch (completeDownload brighten mkTex id httpCode dataPtr cache).2
      = 0 := by
  refine ⟨?_, ?_, ?_⟩
  · by_cases hc : httpCode = 200
    · subst hc
      cases dataPtr with
      | none => simp [downloadResponseData]
      | some d =>
        by_cases hd : d = []
        · subst hd; simp [downloadResponseData]
        · simp [downloadResponseData, hd, List.length_eq_zero]
    · simp [downloadResponseData, hc]
  · intro h
    rw [completeDownload, h]
  · rw [completeDownload]
    cases h : downloadResponseData httpCode dataPtr with
    | none => simp [countFetch]
    | some d =>
      cases hck : cache (sanitizeFilename (uniqueNetIdToString id)) with
      | some tex => simp [loadAvatarModel, hck, countFetch]
      | none =>
        cases hb : brighten d with
        | none => simp [loadAvatarModel, hck, hb, countFetch]
        | some pr =>
          cases ht : mkTex pr with
          | none => simp [loadAvatarModel, hck, hb, ht, countFetch]
          | some tex => simp [loadAvatarModel, hck, hb, ht, countFetch]

/-- C3 witness: a 404 completion is rejected and leaves the state untouched. -/
theorem downloadCompletion_success_criterion_witness :
    downloadResponseData 404 (some [1]) = none ∧
    completeDownload (fun _ => none) (fun _ => none) ⟨Platform.Epic, 0, []⟩ 404
      (some [1]) (fun _ => none) = ((fun _ => none), []) :=
  ⟨by decide,
    (downloadCompletion_success_criterion (fun _ => none) (fun _ => none)
      ⟨Platform.Epic, 0, []⟩ 404 (some [1]) (fun _ => none)).2.1 (by decide)⟩

/-- C4 counterexample: an Xbox (Dingo) identity whose key is Resident in the
cache still triggers a Fetcher call on a remote-load, with no apply call —
`LoadForPRI` takes the Xbox branch before ever consulting the cache. -/
theorem loadForPRI_xbox_resident_still_fetches :
    (fun s => if s = "Dingo0".data then some 7 else none : AvatarCache)
        (uniqueNetIdToString ⟨Platform.Dingo, 0, []⟩) = some 7 ∧
    loadForPRI true (some ⟨Platform.Epic, 1, []⟩)
        (some (⟨Platform.Dingo, 0, []⟩, ['p']))
        (fun s => if s = "Dingo0".data then some 7 else none) =
      [Effect.fetchXboxByName ⟨Platform.Dingo, 0, []⟩ ['p']] ∧
    countFetch (loadForPRI true (some ⟨Platform.Epic, 1, []⟩)
        (some (⟨Platform.Dingo, 0, []⟩, ['p']))
        (fun s => if s = "Dingo0".data then some 7 else none)) = 1 ∧
    countApply (loadForPRI true (some ⟨Platform.Epic, 1, []⟩)
        (some (⟨Platform.Dingo, 0, []⟩, ['p']))
        (fun s => if s = "Dingo0".data then some 7 else none)) = 0 := by
  decide

/-- C4 (amended): for a non-local identity whose raw id-string key is
Resident, a second remote-load on a non-Xbox platform makes zero additional
Fetcher and Normalizer calls and exactly one apply call with the cached
texture; on the Xbox (Dingo) platform the remote-load issues a Fetcher call
even though the key is Resident. -/
theorem loadForPRI_resident_cache_behavior (localId priId : FUniqueNetId)
    (playerName : List Char) (cache : AvatarCache) (tex : Nat)
    (hdiff : ¬(localId.uid = priId.uid ∧
      localId.epicAccountId = priId.epicAccountId))
    (hres : cache (uniqueNetIdToString priId) = some tex) :
    (priId.platform ≠ Platform.Dingo →
      loadForPRI true (some localId) (some (priId, playerName)) cache =
        [Effect.applyTex priId tex] ∧
      countFetch (loadForPRI true (some localId) (some (priId, playerName))
        cache) = 0 ∧
      countNormalize (loadForPRI true (some localId) (some (priId, playerName))
        cache) = 0 ∧
      countApply (loadForPRI true (some localId) (some (priId, playerName))
        cache) = 1) ∧
    (priId.platform = Platform.Dingo →
      loadForPRI true (some localId) (some (priId, playerName)) cache =
        [Effect.fetchXboxByName priId playerName]) := by
  constructor
  · intro hnd
    have heff : loadForPRI true (some localId) (some (priId, playerName)) cache
        = [Effect.applyTex priId tex] := by
      cases hp : priId.platform
      case Dingo => exact absurd hp hnd
      all_goals rw [loadForPRI]; simp [hdiff, hp, hres]
    rw [heff]
    exact ⟨rfl, rfl, rfl, rfl⟩
  · intro hd
    rw [loadForPRI]
    simp [hdiff, hd]

/-- C4 witness: a concrete non-local Epic identity with a Resident key is
served from the cache with one apply and no fetch or normalize. -/
theorem loadForPRI_resident_cache_behavior_witness :
    ¬((⟨Platform.Epic, 1, []⟩ : FUniqueNetId).uid =
        (⟨Platform.Epic, 0, ['R']⟩ : FUniqueNetId).uid ∧
      (⟨Platform.Epic, 1, []⟩ : FUniqueNetId).epicAccountId =
        (⟨Platform.Epic, 0, ['R']⟩ : FUniqueNetId).epicAccountId) ∧
    (fun s => if s = "EpicR".data then some 5 else none : AvatarCache)
        (uniqueNetIdToString ⟨Platform.Epic, 0, ['R']⟩) = some 5 ∧
    (loadForPRI true (some ⟨Platform.Epic, 1, []⟩)
        (some (⟨Platform.Epic, 0, ['R']⟩, []))
        (fun s => if s = "EpicR".data then some 5 else none) =
      [Effect.applyTex ⟨Platform.Epic, 0, ['R']⟩ 5] ∧
    countFetch (loadForPRI true (some ⟨Platform.Epic, 1, []⟩)
        (some (⟨Platform.Epic, 0, ['R']⟩, []))
        (fun s => if s = "EpicR".data then some 5 else none)) = 0 ∧
    countNormalize (loadForPRI true (some ⟨Platform.Epic, 1, []⟩)
        (some (⟨Platform.Epic, 0, ['R']⟩, []))
        (fun s => if s = "EpicR".data then some 5 else none)) = 0 ∧
    countApply (loadForPRI true (some ⟨Platform.Epic, 1, []⟩)
        (some (⟨Platform.Epic, 0, ['R']⟩, []))
        (fun s => if s = "EpicR".data then some 5 else none)) = 1) :=
  ⟨by decide, by decide,
    (loadForPRI_resident_cache_behavior ⟨Platform.Epic, 1, []⟩
        ⟨Platform.Epic, 0, ['R']⟩ []
        (fun s => if s = "EpicR".data then some 5 else none) 5 (by decide)
        (by decide)).1 (by decide)⟩

/-- C7: on every upload completion, whatever the HTTP status and body, the
`UploadToCDN` completion handler deletes the staged temp artifact exactly once
and fires the boolean callback exactly once; composing it with the
`AddLocalAvatar` upload continuation (which removes the same path again after
it is already gone) still yields exactly one deletion and one callback run. -/
theorem uploadCompletion_delete_and_callback_once (filePath : List Char)
    (httpCode : Int) (body : List Char) (id : FUniqueNetId) :
    (runUploadEffects ⟨true, 0, 0⟩
        (uploadCompletionEffects filePath httpCode body)).deletions = 1 ∧
    (runUploadEffects ⟨true, 0, 0⟩
        (uploadCompletionEffects filePath httpCode body)).callbackRuns = 1 ∧
    (runUploadEffects ⟨true, 0, 0⟩
        (uploadCompletionEffects filePath httpCode body ++
          addLocalAvatarUploadContinuation id filePath)).deletions = 1 ∧
    (runUploadEffects ⟨true, 0, 0⟩
        (uploadCompletionEffects filePath httpCode body ++
          addLocalAvatarUploadContinuation id filePath)).callbackRuns = 1 := by
  refine ⟨rfl, rfl, rfl, rfl⟩

/-- C8 counterexample: two distinct Epic identities whose account-id strings
differ only in sanitized-away characters derive the same cache key, so key
derivation is not injective as claimed. -/
theorem cacheKey_collision_counterexample :
    loadAvatarCacheKey ⟨Platform.Epic, 0, ['a', '?']⟩ =
      loadAvatarCacheKey ⟨Platform.Epic, 0, ['a', '*']⟩ ∧
    (⟨Platform.Epic, 0, ['a', '?']⟩ : FUniqueNetId) ≠
      ⟨Platform.Epic, 0, ['a', '*']⟩ := by
  decide

/-- C8 (amended): cache-key derivation is deterministic (a pure function of
the identity), and it is injective on identities whose id part contains no
character `SanitizeFilename` replaces: equal keys force equal platforms and
equal platform-appropriate id fields. Distinct identities whose id strings
contain replaced characters may collide. -/
theorem cacheKey_deterministic_and_inj_on_clean :
    (∀ id : FUniqueNetId, loadAvatarCacheKey id = loadAvatarCacheKey id) ∧
    ∀ id₁ id₂ : FUniqueNetId,
      hasBadChar (idPart id₁) = false → hasBadChar (idPart id₂) = false →
      loadAvatarCacheKey id₁ = loadAvatarCacheKey id₂ →
      id₁.platform = id₂.platform ∧
      (id₁.platform = Platform.Epic → id₁.epicAccountId = id₂.epicAccountId) ∧
      (id₁.platform ≠ Platform.Epic → id₁.uid = id₂.uid) := by
  refine ⟨fun _ => rfl, ?_⟩
  intro id₁ id₂ h₁ h₂ hkey
  have key_eq : ∀ id : FUniqueNetId, hasBadChar (idPart id) = false →
      loadAvatarCacheKey id = platformName id.platform ++ idPart id := by
    intro id h
    rw [loadAvatarCacheKey, uniqueNetIdToString_eq, sanitizeFilename_append,
      sanitizeFilename_platformName, (sanitizeFilename_eq_self_iff _).2 h]
  rw [key_eq id₁ h₁, key_eq id₂ h₂] at hkey
  obtain ⟨hplat, hpart⟩ :=
    platformName_append_inj id₁.platform id₂.platform (idPart id₁) (idPart id₂)
      hkey
  refine ⟨hplat, ?_, ?_⟩
  · intro hEpic
    rw [idPart_of_epic hEpic, idPart_of_epic (hplat ▸ hEpic)] at hpart
    exact hpart
  · intro hne
    rw [idPart_of_ne_epic hne, idPart_of_ne_epic (hplat ▸ hne)] at hpart
    exact uidChars_inj hpart

/-- C8 witness: the amended injectivity applied to a concrete clean Epic
identity. -/
theorem cacheKey_deterministic_and_inj_on_clean_witness :
    hasBadChar (idPart ⟨Platform.Epic, 0, ['a', 'b']⟩) = false ∧
    (⟨Platform.Epic, 0, ['a', 'b']⟩ : FUniqueNetId).platform =
      (⟨Platform.Epic, 0, ['a', 'b']⟩ : FUniqueNetId).platform :=
  ⟨by decide,
    (cacheKey_deterministic_and_inj_on_clean.2 ⟨Platform.Epic, 0, ['a', 'b']⟩
      ⟨Platform.Epic, 0, ['a', 'b']⟩ (by decide) (by decide) rfl).1⟩

/-- C10: `LoadAvatar` inserts under the sanitized id string while
`LoadForPRI`'s lookup and `RemoveLocalAvatar`'s erase use the raw id string;
for every identity whose id string contains a character from `<>:"|?*\/` or
below 32, the insert key differs from both, and an entry inserted under it is
not found under the lookup key; for every identity whose id string has no
such character the keys coincide. -/
theorem cacheKey_insert_lookup_mismatch (id : FUniqueNetId) :
    (hasBadChar (uniqueNetIdToString id) = true →
      loadAvatarCacheKey id ≠ loadForPRICacheKey id ∧
      loadAvatarCacheKey id ≠ removeLocalAvatarCacheKey id ∧
      ∀ tex : Nat,
        Function.update (fun _ => (none : Option Nat)) (loadAvatarCacheKey id)
          (some tex) (loadForPRICacheKey id) = none) ∧
    (hasBadChar (uniqueNetIdToString id) = false →
      loadAvatarCacheKey id = loadForPRICacheKey id ∧
      loadAvatarCacheKey id = removeLocalAvatarCacheKey id) := by
  constructor
  · intro hbad
    have hne : loadAvatarCacheKey id ≠ loadForPRICacheKey id := by
      rw [loadAvatarCacheKey, loadForPRICacheKey]
      intro he
      rw [(sanitizeFilename_eq_self_iff _).1 he] at hbad
      exact absurd hbad (by simp)
    refine ⟨hne, hne, fun tex => ?_⟩
    exact Function.update_noteq (Ne.symm hne) _ _
  · intro hclean
    have := (sanitizeFilename_eq_self_iff (uniqueNetIdToString id)).2 hclean
    exact ⟨this, this⟩

/-- C10 witness: a concrete Epic identity whose account id contains `?` is
inserted under a key that the raw-string lookup misses. -/
theorem cacheKey_insert_lookup_mismatch_witness :
    hasBadChar (uniqueNetIdToString ⟨Platform.Epic, 0, ['a', '?']⟩) = true ∧
    loadAvatarCacheKey ⟨Platform.Epic, 0, ['a', '?']⟩ ≠
      loadForPRICacheKey ⟨Platform.Epic, 0, ['a', '?']⟩ :=
  ⟨by decide,
    ((cacheKey_insert_lookup_mismatch ⟨Platform.Epic, 0, ['a', '?']⟩).1
      (by decide)).1⟩

-- =============================================================================
-- Gamma curve: numeric facts
-- =============================================================================

/-- The gamma exponent is positive. -/
theorem gamma_pos : 0 < gammaCorrectionExponent := by
  norm_num [gammaCorrectionExponent]

/-- The gamma exponent is at most one. -/
theorem gamma_le_one : gammaCorrectionExponent ≤ 1 := by
  norm_num [gammaCorrectionExponent]

/-- The gamma exponent is nonzero. -/
theorem gamma_ne_zero : gammaCorrectionExponent ≠ 0 := ne_of_gt gamma_pos

/-- Upper bound for `255 ^ γ` by comparison with the rational power `5/11`. -/
theorem rpow255_gamma_le : (255 : ℝ) ^ gammaCorrectionExponent ≤ 510 / 41 := by
  have h1 : gammaCorrectionExponent ≤ (5 : ℝ) / 11 := by
    norm_num [gammaCorrectionExponent]
  have h2 : (255 : ℝ) ^ gammaCorrectionExponent ≤ (255 : ℝ) ^ ((5 : ℝ) / 11) :=
    Real.rpow_le_rpow_of_exponent_le (by norm_num) h1
  refine h2.trans ?_
  have key : ((255 : ℝ) ^ ((5 : ℝ) / 11)) ^ (11 : ℕ) = (255 : ℝ) ^ (5 : ℕ) := by
    rw [← Real.rpow_natCast ((255 : ℝ) ^ ((5 : ℝ) / 11)) 11,
      ← Real.rpow_mul (by norm_num : (0 : ℝ) ≤ 255),
      show ((5 : ℝ) / 11 * (11 : ℕ)) = ((5 : ℕ) : ℝ) by push_cast; ring,
      Real.rpow_natCast]
  have hpow : ((255 : ℝ) ^ ((5 : ℝ) / 11)) ^ (11 : ℕ) ≤ ((510 : ℝ) / 41) ^ (11 : ℕ) := by
    rw [key]; norm_num
  exact le_of_pow_le_pow_left₀ (by norm_num) (by norm_num) hpow

/-- Lower bound for `255 ^ γ` by comparison with the rational power
`909/2000`. -/
theorem rpow255_gamma_gt : (85 : ℝ) / 7 < (255 : ℝ) ^ gammaCorrectionExponent := by
  have h1 : (909 : ℝ) / 2000 ≤ gammaCorrectionExponent := by
    norm_num [gammaCorrectionExponent]
  have h2 : (255 : ℝ) ^ ((909 : ℝ) / 2000) ≤ (255 : ℝ) ^ gammaCorrectionExponent :=
    Real.rpow_le_rpow_of_exponent_le (by norm_num) h1
  refine lt_of_lt_of_le ?_ h2
  have key : ((255 : ℝ) ^ ((909 : ℝ) / 2000)) ^ (2000 : ℕ) = (255 : ℝ) ^ (909 : ℕ) := by
    rw [← Real.rpow_natCast ((255 : ℝ) ^ ((909 : ℝ) / 2000)) 2000,
      ← Real.rpow_mul (by norm_num : (0 : ℝ) ≤ 255),
      show ((909 : ℝ) / 2000 * (2000 : ℕ)) = ((909 : ℕ) : ℝ) by push_cast; ring,
      Real.rpow_natCast]
  have hpow : ((85 : ℝ) / 7) ^ (2000 : ℕ) < ((255 : ℝ) ^ ((909 : ℝ) / 2000)) ^ (2000 : ℕ) := by
    rw [key]; norm_num
  exact lt_of_pow_lt_pow_left₀ 2000 (Real.rpow_nonneg (by norm_num) _) hpow

/-- The real value behind the table entry for input byte 1 is at least
`20.5`. -/
theorem gamma_one_lower :
    (41 : ℝ) / 2 ≤ ((1 : ℝ) / 255) ^ gammaCorrectionExponent * 255 := by
  have hz_pos : (0 : ℝ) < (255 : ℝ) ^ gammaCorrectionExponent :=
    Real.rpow_pos_of_pos (by norm_num) _
  have ht : ((1 : ℝ) / 255) ^ gammaCorrectionExponent =
      ((255 : ℝ) ^ gammaCorrectionExponent)⁻¹ := by
    rw [one_div, Real.inv_rpow (by norm_num : (0 : ℝ) ≤ 255)]
  rw [ht, inv_mul_eq_div, le_div_iff₀ hz_pos]
  nlinarith [rpow255_gamma_le]

/-- The real value behind the table entry for input byte 1 is below 21. -/
theorem gamma_one_upper :
    ((1 : ℝ) / 255) ^ gammaCorrectionExponent * 255 < 21 := by
  have hz_pos : (0 : ℝ) < (255 : ℝ) ^ gammaCorrectionExponent :=
    Real.rpow_pos_of_pos (by norm_num) _
  have ht : ((1 : ℝ) / 255) ^ gammaCorrectionExponent =
      ((255 : ℝ) ^ gammaCorrectionExponent)⁻¹ := by
    rw [one_div, Real.inv_rpow (by norm_num : (0 : ℝ) ≤ 255)]
  rw [ht, inv_mul_eq_div, div_lt_iff₀ hz_pos]
  nlinarith [rpow255_gamma_gt]

/-- The code's table entry for input byte 1 is 20 (truncation). -/
theorem srgbLut_one : srgbLut 1 = 20 := by
  rw [srgbLut, Nat.cast_one, Nat.floor_eq_iff (by positivity)]
  constructor
  · have := gamma_one_lower
    push_cast
    linarith
  · have := gamma_one_upper
    push_cast
    linarith

/-- The spec's round formula prescribes 21 for input byte 1. -/
theorem specGammaRound_one : specGammaRound 1 = 21 := by
  rw [specGammaRound, Nat.cast_one, round_eq, Int.floor_eq_iff]
  constructor
  · have := gamma_one_lower
    push_cast
    linarith
  · have := gamma_one_upper
    push_cast
    linarith

-- =============================================================================
-- Gamma loop characterization
-- =============================================================================

/-- After `c` steps of the inner channel loop for pixel `i`, exactly the
bytes at offsets below `min c 3` in that pixel's row are mapped through the
table. -/
theorem gammaInnerLoop_apply (i channels : Nat) :
    ∀ (c : Nat) (d : Nat → Nat) (idx : Nat),
      gammaInnerLoop i channels c d idx =
        if i * channels ≤ idx ∧ idx < i * channels + min c 3 then
          srgbLut (d idx)
        else d idx := by
  intro c
  induction c with
  | zero =>
    intro d idx
    simp only [gammaInnerLoop]
    rw [if_neg (by omega)]
  | succ c ih =>
    intro d idx
    simp only [gammaInnerLoop]
    by_cases h3 : c < 3
    · rw [if_pos h3]
      by_cases heq : idx = i * channels + c
      · subst heq
        rw [Function.update_same, ih,
          if_neg (show ¬(i * channels ≤ i * channels + c ∧
            i * channels + c < i * channels + min c 3) by omega),
          if_pos (show i * channels ≤ i * channels + c ∧
            i * channels + c < i * channels + min (c + 1) 3 by omega)]
      · rw [Function.update_noteq heq, ih]
        by_cases hin : i * channels ≤ idx ∧ idx < i * channels + min c 3
        · rw [if_pos hin, if_pos (by omega)]
        · rw [if_neg hin, if_neg (by omega)]
    · rw [if_neg h3, ih,
        show min c 3 = min (c + 1) 3 by omega]

/-- After `i` pixels of the outer loop, exactly the first three channels of
each completed pixel are mapped through the table. -/
theorem gammaOuterLoop_apply (channels : Nat) (hch : 0 < channels) :
    ∀ (i : Nat) (d : Nat → Nat) (idx : Nat),
      gammaOuterLoop channels i d idx =
        if idx < i * channels ∧ idx % channels < 3 then srgbLut (d idx)
        else d idx := by
  intro i
  induction i with
  | zero =>
    intro d idx
    simp only [gammaOuterLoop]
    rw [if_neg (by omega)]
  | succ i ih =>
    intro d idx
    simp only [gammaOuterLoop]
    rw [gammaInnerLoop_apply, ih, Nat.succ_mul]
    rcases Nat.lt_or_ge idx (i * channels) with hlt | hge
    · rw [if_neg (by omega)]
      by_cases hm : idx % channels < 3
      · rw [if_pos ⟨hlt, hm⟩, if_pos ⟨by omega, hm⟩]
      · rw [if_neg (by tauto), if_neg (by tauto)]
    · rw [if_neg (show ¬(idx < i * channels ∧ idx % channels < 3) by omega)]
      rcases Nat.lt_or_ge idx (i * channels + channels) with hrow | hbeyond
      · have hmod : idx % channels = idx - i * channels := by
          have h3 : channels * i + (idx - i * channels) = idx := by
            rw [mul_comm]
            exact Nat.add_sub_cancel' hge
          calc idx % channels
              = (channels * i + (idx - i * channels)) % channels := by rw [h3]
            _ = (idx - i * channels) % channels :=
                Nat.mul_add_mod channels i _
            _ = idx - i * channels := Nat.mod_eq_of_lt (by omega)
        by_cases hz : idx < i * channels + min channels 3
        · rw [if_pos ⟨hge, hz⟩, if_pos ⟨by omega, by omega⟩]
        · rw [if_neg (by omega), if_neg (by omega)]
      · rw [if_neg (by omega), if_neg (by omega)]

/-- The gamma pass of `BrightenImage` on a `width*height*channels` buffer
maps exactly the in-range bytes whose channel offset is below 3. -/
theorem applyGammaLoop_apply (channels w h : Nat) (hch : 0 < channels)
    (d : Nat → Nat) (idx : Nat) :
    applyGammaLoop channels (w * h * channels) d idx =
      if idx < w * h * channels ∧ idx % channels < 3 then srgbLut (d idx)
      else d idx := by
  rw [applyGammaLoop, Nat.mul_div_cancel _ hch, gammaOuterLoop_apply channels hch]

/-- C5 counterexample: for input byte 1 the code's lookup table yields 20 (the
C cast truncates) while the spec's round formula prescribes 21; a 1x1 RGB
image whose bytes are (1,1,1) is mapped to 20 at channel 0, not 21. -/
theorem gamma_round_formula_counterexample :
    srgbLut 1 = 20 ∧ specGammaRound 1 = 21 ∧
    applyGammaLoop 3 (1 * 1 * 3) (fun _ => 1) 0 = 20 ∧ (20 : ℤ) ≠ 21 := by
  refine ⟨srgbLut_one, specGammaRound_one, ?_, by decide⟩
  rw [applyGammaLoop_apply 3 1 1 (by norm_num) (fun _ => 1) 0,
    if_pos ⟨by norm_num, by norm_num⟩]
  exact srgbLut_one

/-- C5 (amended): when brightness adjustment runs, every in-range byte whose
channel offset is below 3 (R, G, B) is mapped through
`⌊255 * (input/255) ^ γ⌋` — truncation, as the C cast performs, not rounding —
and any further channel (alpha) of every pixel is left untouched. -/
theorem brightenImage_gamma_mapping (channels w h : Nat) (d : Nat → Nat)
    (idx : Nat) (hch : 0 < channels) (hidx : idx < w * h * channels) :
    applyGammaLoop channels (w * h * channels) d idx =
      if idx % channels < 3 then
        ⌊((d idx : ℝ) / 255) ^ gammaCorrectionExponent * 255⌋₊
      else d idx := by
  rw [applyGammaLoop_apply channels w h hch]
  by_cases hm : idx % channels < 3
  · rw [if_pos ⟨hidx, hm⟩, if_pos hm]
    rfl
  · rw [if_neg (by tauto), if_neg hm]

/-- C5 witness: the amended mapping at the alpha byte of a 1x1 RGBA image. -/
theorem brightenImage_gamma_mapping_witness :
    (0 : Nat) < 4 ∧ (3 : Nat) < 1 * 1 * 4 ∧
    applyGammaLoop 4 (1 * 1 * 4) (fun _ => 9) 3 =
      if 3 % 4 < 3 then
        ⌊(((fun _ => (9 : Nat)) 3 : ℝ) / 255) ^ gammaCorrectionExponent * 255⌋₊
      else (fun _ => (9 : Nat)) 3 :=
  ⟨by norm_num, by norm_num,
    brightenImage_gamma_mapping 4 1 1 (fun _ => 9) 3 (by norm_num) (by norm_num)⟩

/-- C6: the code's gamma table is monotone-brightening on bytes: every input
below 255 maps to an output at least as large, 255 maps to 255 and 0 maps
to 0. -/
theorem srgbLut_monotone_brightening :
    (∀ v : Nat, v < 255 → v ≤ srgbLut v) ∧ srgbLut 255 = 255 ∧ srgbLut 0 = 0 := by
  refine ⟨?_, ?_, ?_⟩
  · intro v hv
    rcases Nat.eq_zero_or_pos v with rfl | hvpos
    · exact Nat.zero_le _
    apply Nat.le_floor
    have hx_pos : (0 : ℝ) < (v : ℝ) / 255 := by
      apply div_pos _ (by norm_num)
      exact_mod_cast hvpos
    have hx_le : (v : ℝ) / 255 ≤ 1 := by
      rw [div_le_one (by norm_num)]
      exact_mod_cast hv.le
    have hmono : ((v : ℝ) / 255) ^ (1 : ℝ) ≤
        ((v : ℝ) / 255) ^ gammaCorrectionExponent :=
      Real.rpow_le_rpow_of_exponent_ge hx_pos hx_le gamma_le_one
    rw [Real.rpow_one] at hmono
    nlinarith [hmono]
  · rw [srgbLut, show (((255 : Nat)) : ℝ) / 255 = 1 by norm_num,
      Real.one_rpow, one_mul]
    norm_num
  · rw [srgbLut, show (((0 : Nat)) : ℝ) / 255 = 0 by norm_num,
      Real.zero_rpow gamma_ne_zero, zero_mul]
    exact Nat.floor_zero

/-- C6 witness: the monotone part applied at input byte 7. -/
theorem srgbLut_monotone_brightening_witness :
    (7 : Nat) < 255 ∧ 7 ≤ srgbLut 7 :=
  ⟨by norm_num, srgbLut_monotone_brightening.1 7 (by norm_num)⟩

/-- C9: a null brightness flag (cvar manager or brightness cvar unavailable)
takes the gamma path of `BrightenImage`; only a present-and-false flag takes
the pixel-unchanged re-encode path, and the two paths are observably
different. -/
theorem brightness_null_takes_gamma_path :
    getBrightnessEnabled none = none ∧
    (∀ store : String → Option Bool,
      store CVAR_BRIGHTNESS_ADJUSTMENT_ENABLED = none →
      getBrightnessEnabled (some store) = none) ∧
    (∀ (channels totalPixels : Nat) (d : Nat → Nat),
      brightenImagePixels none channels totalPixels d =
        applyGammaLoop channels totalPixels d) ∧
    (∀ (channels totalPixels : Nat) (d : Nat → Nat),
      brightenImagePixels (some true) channels totalPixels d =
        applyGammaLoop channels totalPixels d) ∧
    (∀ (channels totalPixels : Nat) (d : Nat → Nat),
      brightenImagePixels (some false) channels totalPixels d = d) ∧
    brightenImagePixels none 3 (1 * 1 * 3) (fun _ => 1) 0 = 20 ∧
    brightenImagePixels (some false) 3 (1 * 1 * 3) (fun _ => 1) 0 = 1 := by
  refine ⟨rfl, ?_, fun _ _ _ => rfl, fun _ _ _ => rfl, fun _ _ _ => rfl, ?_, rfl⟩
  · intro store h
    rw [getBrightnessEnabled, h]
  · show applyGammaLoop 3 (1 * 1 * 3) (fun _ => 1) 0 = 20
    rw [applyGammaLoop_apply 3 1 1 (by norm_num) (fun _ => 1) 0,
      if_pos ⟨by norm_num, by norm_num⟩]
    exact srgbLut_one

/-- C9 witness: a store without the brightness cvar yields a null flag. -/
theorem brightness_null_takes_gamma_path_witness :
    getBrightnessEnabled (some fun _ => none) = none :=
  brightness_null_takes_gamma_path.2.1 (fun _ => none) rfl
